import Mathlib

/-!
# Verification of the debot position manager

Shallow embedding of `src/position_manager.rs` (crate `debot-position-manager`).
`rust_decimal::Decimal` is modelled by `ℚ` (exact arithmetic; the claims under
study only involve small decimal fractions, where `Decimal` arithmetic is
exact as well).  The `RefCell<Option<Decimal>>` trailing extreme is modelled
by threading the position record through the risk queries.  `Result<(), ()>`
together with the possibility of an `assert!` failure inside `update_state`
is modelled by a three-way result type: `Ok` and `Err` both carry the
(possibly mutated) receiver, since the Rust methods take `&mut self` and
mutations performed before an early `return Err(())` persist; `Panic` marks
an assertion failure.

`PositionType` in this snapshot of `position_manager.rs` is matched
exhaustively with the two arms `Long` and `Short` (see
`is_trailing_stop_triggered`, `should_take_profit`, `has_reached_take_profit`),
so the embedded type has exactly those two constructors.

Wall-clock access (`get_local_time`) is abstracted into an explicit `Clock`
argument supplying the timestamp and the formatted time string.
-/

namespace DebotPM

/-- Rust `ReasonForClose` from `position_manager.rs`. -/
inductive ReasonForClose where
  | Liquidated
  | Expired
  | TakeProfit
  | CutLoss
  | Other (s : String)
deriving DecidableEq, Repr

/-- Rust `State` from `position_manager.rs`: `Opening | Open | Closing(String) | Closed(String)`. -/
inductive State where
  | Opening
  | Open
  | Closing (reason : String)
  | Closed (reason : String)
deriving DecidableEq, Repr

/-- Rust `PositionType` as used by `position_manager.rs` (exhaustive `Long`/`Short` matches). -/
inductive PositionType where
  | Long
  | Short
deriving DecidableEq, Repr

/-- Rust `PositionType::opposite` from `lib.rs`. -/
def PositionType.opposite : PositionType → PositionType
  | .Long => .Short
  | .Short => .Long

/-- Private `enum UpdateResult` from `position_manager.rs`. -/
inductive UpdateResult where
  | Closed
  | Decreased
  | Inverted
deriving DecidableEq, Repr

/-- Rust `CancelResult` from `position_manager.rs`. -/
inductive CancelResult where
  | OpeningCanceled
  | ClosingCanceled
  | PartiallyFilled
deriving DecidableEq, Repr

/-- Outcome of a fallible `&mut self` method: `Ok`/`Err` both return the
(possibly mutated) receiver — `Ok` together with the method's return value
when it has one — and `Panic` models an `assert!` failure. -/
inductive CallResult (α β : Type) where
  | Ok (val : α)
  | Err (val : β)
  | Panic
deriving DecidableEq, Repr

/-- The payload when the call returned `Ok(..)`. -/
def CallResult.getOk : CallResult α β → Option α
  | .Ok v => some v
  | _ => none

/-- The receiver when the call returned `Err(())`. -/
def CallResult.getErr : CallResult α β → Option β
  | .Err v => some v
  | _ => none

/-- The injected wall clock (`get_local_time` returns a timestamp and a
formatted time string). -/
structure Clock where
  timestamp : Int
  time_str : String
deriving DecidableEq, Repr

/-- Rust `TradePosition` from `position_manager.rs`, restricted to the fields read
or written by the embedded methods (the six-tuple indicator snapshots and
other write-once diagnostic fields are opaque data never touched after
construction). -/
structure TradePosition where
  id : Nat
  fund_name : String
  order_id : String
  ordered_price : ℚ
  unfilled_amount : ℚ
  state : State
  token_name : String
  tick_count : Nat
  actual_entry_tick : Nat
  actual_hold_tick : Nat
  entry_timeout_tick_count : Nat
  exit_timeout_tick_count : Nat
  max_holding_tick_count : Nat
  open_time_str : String
  open_timestamp : Int
  close_time_str : String
  average_open_price : ℚ
  position_type : PositionType
  predicted_price : ℚ
  take_profit_price : Option ℚ
  cut_loss_price : Option ℚ
  close_price : ℚ
  close_asset_in_usd : ℚ
  amount : ℚ
  asset_in_usd : ℚ
  pnl : ℚ
  fee : ℚ
  trailing_peak_price : Option ℚ
deriving DecidableEq, Repr

namespace TradePosition

/-- Rust `num_traits::Signed::signum` on `Decimal`: `1`, `-1` or `0`. -/
def signumD (x : ℚ) : ℚ := if 0 < x then 1 else if x < 0 then -1 else 0

/-- Rust `Self::unrealized_pnl`. -/
def unrealized_pnl (price amount asset_in_usd : ℚ) : ℚ :=
  amount * price + asset_in_usd

/-- Rust `set_open_time` (stamps the injected clock). -/
def set_open_time (c : Clock) (p : TradePosition) : TradePosition :=
  { p with open_timestamp := c.timestamp, open_time_str := c.time_str }

/-- Rust `set_close_time` (stamps only the time string). -/
def set_close_time (c : Clock) (p : TradePosition) : TradePosition :=
  { p with close_time_str := c.time_str }

/-- Rust `update_state`.  The source first runs
`assert!(new_state != self.state)`; the assertion failure is modelled as
`none`. -/
def update_state (c : Clock) (p : TradePosition) (new_state : State) :
    Option TradePosition :=
  if new_state = p.state then none
  else
    let p1 :=
      match new_state with
      | State.Closing _ => { p with actual_hold_tick := p.tick_count, tick_count := 0 }
      | State.Open =>
        match p.state with
        | State.Opening =>
          set_open_time c { p with actual_entry_tick := p.tick_count, tick_count := 0 }
        | State.Closing _ => { p with tick_count := p.max_holding_tick_count }
        | _ => p
      | State.Closed _ => set_close_time c p
      | _ => p
    some { p1 with state := new_state }

/-- Rust `update_amount`. -/
def update_amount (p : TradePosition) (position_type : PositionType)
    (amount asset_in_usd : ℚ) : TradePosition :=
  if position_type = PositionType.Long then
    { p with amount := p.amount + amount, asset_in_usd := p.asset_in_usd - asset_in_usd }
  else
    { p with amount := p.amount - amount, asset_in_usd := p.asset_in_usd + asset_in_usd }

/-- Rust `realize_pnl`. -/
def realize_pnl (p : TradePosition) (pnl : ℚ) : TradePosition :=
  { p with pnl := p.pnl + pnl, asset_in_usd := p.asset_in_usd - pnl }

/-- Rust `calculate_pnl_for_update` (called after `update_amount`, so
`p.amount` is the post-update amount and `p.average_open_price` is
unchanged). -/
def calculate_pnl_for_update (p : TradePosition) (update_result : UpdateResult)
    (prev_amount close_price prev_asset_in_usd : ℚ) : ℚ :=
  match update_result with
  | UpdateResult.Decreased =>
    (close_price - p.average_open_price) * (prev_amount - p.amount)
  | _ => unrealized_pnl close_price prev_amount prev_asset_in_usd

/-- Rust `update_amount_and_pnl`. -/
def update_amount_and_pnl (p : TradePosition) (position_type : PositionType)
    (amount asset_in_usd close_price : ℚ) : UpdateResult × TradePosition :=
  let prev_asset_in_usd := p.asset_in_usd
  let prev_amount := p.amount
  let p1 := update_amount p position_type amount asset_in_usd
  let update_result :=
    if p1.amount = 0 then UpdateResult.Closed
    else if signumD prev_amount ≠ signumD p1.amount then UpdateResult.Inverted
    else UpdateResult.Decreased
  let pnl := calculate_pnl_for_update p1 update_result prev_amount close_price prev_asset_in_usd
  (update_result, realize_pnl p1 pnl)

/-- Rust `delete`.  Note the early return for an `Opening` position with zero
amount, which performs only the state change. -/
def delete (c : Clock) (p : TradePosition) (close_price : ℚ) (reason : String) :
    Option TradePosition :=
  if p.state = State.Opening ∧ p.amount = 0 then
    update_state c p (State.Closed reason)
  else
    let st? :=
      match p.state with
      | State.Closing closing_reason => update_state c p (State.Closed closing_reason)
      | _ => update_state c p (State.Closed reason)
    match st? with
    | none => none
    | some p1 =>
      some { p1 with
        close_price := close_price,
        pnl := p1.pnl + unrealized_pnl close_price p1.amount p1.asset_in_usd - p1.fee,
        amount := 0,
        asset_in_usd := 0 }

/-- Rust `increase`. -/
def increase (p : TradePosition) (position_type : PositionType) (filled_price : ℚ)
    (take_profit_price cut_loss_price : Option ℚ) (amount asset_in_usd : ℚ) :
    TradePosition :=
  let current_amount := |p.amount|
  let p1 := { p with
    average_open_price :=
      (p.average_open_price * current_amount + filled_price * amount) /
        (current_amount + amount),
    take_profit_price :=
      match take_profit_price with
      | some new_price =>
        match p.take_profit_price with
        | some current_price =>
          some ((current_price * current_amount + new_price * amount) /
            (current_amount + amount))
        | none => some new_price
      | none => none,
    cut_loss_price :=
      match cut_loss_price with
      | some new_price =>
        match p.cut_loss_price with
        | some current_price =>
          some ((current_price * current_amount + new_price * amount) /
            (current_amount + amount))
        | none => some new_price
      | none => none }
  update_amount p1 position_type amount asset_in_usd

/-- Rust `decrease` (`current_price` is used only for logging in the source). -/
def decrease (c : Clock) (p : TradePosition) (position_type : PositionType)
    (filled_price : ℚ) (take_profit_price cut_loss_price : Option ℚ)
    (amount asset_in_usd current_price : ℚ) : Option TradePosition :=
  let p0 := { p with close_asset_in_usd := p.close_asset_in_usd + asset_in_usd }
  let r := update_amount_and_pnl p0 position_type amount asset_in_usd filled_price
  match r.1 with
  | UpdateResult.Closed => delete c r.2 filled_price "CounterTrade"
  | UpdateResult.Inverted =>
    some { r.2 with
      average_open_price := filled_price,
      take_profit_price := take_profit_price,
      cut_loss_price := cut_loss_price,
      position_type := r.2.position_type.opposite }
  | UpdateResult.Decreased => some r.2

/-- Rust `on_filled`. -/
def on_filled (c : Clock) (p : TradePosition) (position_type : PositionType)
    (filled_price amount asset_in_usd fee : ℚ)
    (take_profit_price cut_loss_price : Option ℚ) (current_price : ℚ) :
    CallResult TradePosition TradePosition :=
  let gate : CallResult TradePosition TradePosition :=
    match p.state with
    | State.Opening =>
      let p1 := { p with unfilled_amount := p.unfilled_amount - amount }
      if p1.unfilled_amount = 0 then
        match update_state c p1 State.Open with
        | some p2 => CallResult.Ok p2
        | none => CallResult.Panic
      else CallResult.Ok p1
    | State.Open => CallResult.Ok p
    | State.Closing _ => CallResult.Ok p
    | State.Closed _ => CallResult.Err p
  match gate with
  | CallResult.Ok p2 =>
    let p3 := { p2 with fee := p2.fee + fee }
    let res : Option TradePosition :=
      if p3.position_type = position_type then
        some (increase p3 position_type filled_price take_profit_price cut_loss_price
          amount asset_in_usd)
      else
        decrease c p3 position_type filled_price take_profit_price cut_loss_price
          amount asset_in_usd current_price
    match res with
    | some p4 => CallResult.Ok { p4 with ordered_price := p4.average_open_price }
    | none => CallResult.Panic
  | e => e

/-- Rust `on_liquidated`.  The fee is accumulated *before* the state check, so a
call that fails with `Err(())` still leaves the fee incremented. -/
def on_liquidated (c : Clock) (p : TradePosition) (close_price fee : ℚ)
    (do_liquidate : Bool) (liquidated_reason : Option String) :
    CallResult TradePosition TradePosition :=
  let p1 := { p with fee := p.fee + fee }
  let reason? : Option String :=
    if do_liquidate then
      some (match liquidated_reason with
        | some r => "Liquidated, " ++ r
        | none => "Liquidated")
    else
      match p1.state with
      | State.Closing reason => some reason
      | _ => none
  match reason? with
  | none => CallResult.Err p1
  | some reason =>
    match delete c p1 close_price reason with
    | some p2 => CallResult.Ok p2
    | none => CallResult.Panic

/-- Rust `cancel`. -/
def cancel (c : Clock) (p : TradePosition) :
    CallResult (CancelResult × TradePosition) TradePosition :=
  match p.state with
  | State.Opening =>
    if p.amount = 0 then
      match update_state c p (State.Closed "Not filled at all") with
      | some q => CallResult.Ok (CancelResult.OpeningCanceled, q)
      | none => CallResult.Panic
    else
      match update_state c p State.Open with
      | some q => CallResult.Ok (CancelResult.PartiallyFilled, q)
      | none => CallResult.Panic
  | State.Closing _ =>
    match update_state c p State.Open with
    | some q => CallResult.Ok (CancelResult.ClosingCanceled, q)
    | none => CallResult.Panic
  | _ => CallResult.Err p

/-- Rust `request_close`. -/
def request_close (c : Clock) (p : TradePosition) (order_id : String)
    (reason : String) : CallResult TradePosition TradePosition :=
  let legal : Bool :=
    match p.state with
    | State.Opening => !(p.unfilled_amount = 0 : Bool)
    | State.Open => true
    | _ => false
  if legal then
    match update_state c { p with order_id := order_id } (State.Closing reason) with
    | some q => CallResult.Ok q
    | none => CallResult.Panic
  else CallResult.Err p

/-- Rust `update_counter`. -/
def update_counter (p : TradePosition) : TradePosition :=
  { p with tick_count := p.tick_count + 1 }

/-- Rust `should_cancel_order`. -/
def should_cancel_order (p : TradePosition) : Bool :=
  match p.state with
  | State.Opening => decide (p.entry_timeout_tick_count < p.tick_count)
  | State.Closing _ => decide (p.exit_timeout_tick_count < p.tick_count)
  | _ => false

/-- The local `trailing_stop_ratio` computed inside
`is_trailing_stop_triggered`: `expected_profit / open_price * Decimal::new(5, 1)`. -/
def trailing_stop_ratio_of (p : TradePosition) (tp_price : ℚ) : ℚ :=
  let expected_profit :=
    match p.position_type with
    | PositionType.Long => tp_price - p.average_open_price
    | PositionType.Short => p.average_open_price - tp_price
  expected_profit / p.average_open_price * ((5 : ℚ) / 10)

/-- Rust `is_trailing_stop_triggered` (pure: reads the trailing extreme, never
writes it). -/
def is_trailing_stop_triggered (p : TradePosition) (close_price : ℚ) : Bool :=
  match p.take_profit_price with
  | none => false
  | some tp_price =>
    let trailing_stop_ratio := trailing_stop_ratio_of p tp_price
    match p.position_type with
    | PositionType.Long =>
      match p.trailing_peak_price with
      | some peak =>
        decide (close_price ≤ peak * (1 - trailing_stop_ratio)) &&
          decide (p.average_open_price < close_price)
      | none => false
    | PositionType.Short =>
      match p.trailing_peak_price with
      | some trough =>
        decide (trough * (1 + trailing_stop_ratio) ≤ close_price) &&
          decide (close_price < p.average_open_price)
      | none => false

/-- The lazy peak/trough update performed by `should_take_profit` through the
`RefCell` (Long: once `close_price >= tp_price`, `get_or_insert(max(close,
open))` then raise to `close_price` when larger; Short symmetric). -/
def update_trailing_extreme (p : TradePosition) (close_price : ℚ) : TradePosition :=
  match p.take_profit_price with
  | none => p
  | some tp_price =>
    match p.position_type with
    | PositionType.Long =>
      if close_price ≥ tp_price then
        match p.trailing_peak_price with
        | none =>
          { p with trailing_peak_price := some (max close_price p.average_open_price) }
        | some peak =>
          if close_price > peak then { p with trailing_peak_price := some close_price }
          else p
      else p
    | PositionType.Short =>
      if close_price ≤ tp_price then
        match p.trailing_peak_price with
        | none =>
          { p with trailing_peak_price := some (min close_price p.average_open_price) }
        | some trough =>
          if close_price < trough then { p with trailing_peak_price := some close_price }
          else p
      else p

/-- Rust `should_take_profit`: requires `Open`, performs the lazy extreme update,
then evaluates the trailing trigger.  Returns the flag together with the
position carrying the updated trailing extreme. -/
def should_take_profit (p : TradePosition) (close_price : ℚ) :
    Bool × TradePosition :=
  if p.state = State.Open then
    let p1 := update_trailing_extreme p close_price
    (is_trailing_stop_triggered p1 close_price, p1)
  else (false, p)

/-- Rust `should_cut_loss`. -/
def should_cut_loss (p : TradePosition) (close_price : ℚ) : Bool :=
  if p.state = State.Open then
    match p.cut_loss_price with
    | some cut_loss_price =>
      if p.position_type = PositionType.Long then decide (close_price ≤ cut_loss_price)
      else decide (cut_loss_price ≤ close_price)
    | none => false
  else false

/-- Rust `should_close`: take-profit first, then cut-loss.  The second component
is the position with the trailing extreme possibly updated by the embedded
`should_take_profit` call. -/
def should_close (p : TradePosition) (close_price : ℚ) :
    Option ReasonForClose × TradePosition :=
  let r := should_take_profit p close_price
  if r.1 then (some ReasonForClose.TakeProfit, r.2)
  else if should_cut_loss r.2 close_price then (some ReasonForClose.CutLoss, r.2)
  else (none, r.2)

/-- The fixed take-profit test forming the first half of
`has_reached_take_profit`: Long when `close_price >= tp`, Short when
`close_price <= tp`. -/
def fixed_tp_crossed (p : TradePosition) (close_price : ℚ) : Bool :=
  match p.position_type with
  | PositionType.Long =>
    match p.take_profit_price with
    | some tp => decide (tp ≤ close_price)
    | none => false
  | PositionType.Short =>
    match p.take_profit_price with
    | some tp => decide (close_price ≤ tp)
    | none => false

/-- Rust `has_reached_take_profit`: the early-returning fixed test, falling back
to the trailing trigger. -/
def has_reached_take_profit (p : TradePosition) (close_price : ℚ) : Bool :=
  if fixed_tp_crossed p close_price then true
  else is_trailing_stop_triggered p close_price

/-- Rust `should_open_expired`. -/
def should_open_expired (p : TradePosition) (close_price : ℚ) : Bool :=
  if p.state = State.Open then
    decide (p.max_holding_tick_count < p.tick_count) &&
      !(has_reached_take_profit p close_price)
  else false

end TradePosition

/-! ## Concrete sample data used by counterexamples and witnesses -/

/-- A fixed clock value for concrete evaluations. -/
def clk : Clock := { timestamp := 1000, time_str := "t0" }

/-- A second clock value, distinguishable from `clk`. -/
def clk2 : Clock := { timestamp := 2000, time_str := "t1" }

/-- An `Open` Long position: 100 units at average price 10, take-profit 12,
cut-loss 9, no trailing extreme recorded (the §8 concrete scenario). -/
def mkPos : TradePosition :=
  { id := 1, fund_name := "fund", order_id := "ord", ordered_price := 0,
    unfilled_amount := 0, state := State.Open, token_name := "tok",
    tick_count := 0, actual_entry_tick := 0, actual_hold_tick := 0,
    entry_timeout_tick_count := 5, exit_timeout_tick_count := 5,
    max_holding_tick_count := 50, open_time_str := "", open_timestamp := 0,
    close_time_str := "", average_open_price := 10,
    position_type := PositionType.Long, predicted_price := 0,
    take_profit_price := some 12, cut_loss_price := some 9,
    close_price := 0, close_asset_in_usd := 0, amount := 100,
    asset_in_usd := -1000, pnl := 0, fee := 0, trailing_peak_price := none }

/-- Rust `mkPos` with a recorded trailing peak of 12.5. -/
def mkPosPeak : TradePosition := { mkPos with trailing_peak_price := some (25 / 2) }

/-- An `Open` Short position: 100 units short at average price 10,
take-profit 8, cut-loss 11, no trailing extreme recorded. -/
def mkPosShort : TradePosition :=
  { mkPos with
    position_type := PositionType.Short
    take_profit_price := some 8
    cut_loss_price := some 11
    amount := -100
    asset_in_usd := 1000 }

/-- An `Open` Long position holding 10 units at average price 10. -/
def mkPosSmall : TradePosition :=
  { mkPos with amount := 10, asset_in_usd := -100 }

/-- An `Opening` Long position, partially filled: 5 of 8 units filled, 3
outstanding. -/
def mkPosOpening : TradePosition :=
  { mkPos with
    state := State.Opening
    amount := 5
    unfilled_amount := 3
    asset_in_usd := -50 }

/-- A terminally `Closed` position. -/
def mkPosClosed : TradePosition := { mkPos with state := State.Closed "done" }

/-- A position with a pending close request. -/
def mkPosClosing : TradePosition := { mkPos with state := State.Closing "Expired" }

/-- A freshly created `Opening` position with 50 units on order. -/
def mkPosFresh : TradePosition :=
  { mkPos with
    state := State.Opening
    amount := 0
    asset_in_usd := 0
    unfilled_amount := 50
    average_open_price := 0
    take_profit_price := none
    cut_loss_price := none }

/-! ## Helper lemmas -/

open TradePosition

/-- Updating the trailing extreme never changes the lifecycle state. -/
@[simp] lemma ute_state (p : TradePosition) (price : ℚ) :
    (update_trailing_extreme p price).state = p.state := by
  unfold update_trailing_extreme
  (repeat' split) <;> rfl

/-- Updating the trailing extreme never changes the side. -/
@[simp] lemma ute_position_type (p : TradePosition) (price : ℚ) :
    (update_trailing_extreme p price).position_type = p.position_type := by
  unfold update_trailing_extreme
  (repeat' split) <;> rfl

/-- Updating the trailing extreme never changes the average open price. -/
@[simp] lemma ute_average_open_price (p : TradePosition) (price : ℚ) :
    (update_trailing_extreme p price).average_open_price = p.average_open_price := by
  unfold update_trailing_extreme
  (repeat' split) <;> rfl

/-- Updating the trailing extreme never changes the take-profit threshold. -/
@[simp] lemma ute_take_profit_price (p : TradePosition) (price : ℚ) :
    (update_trailing_extreme p price).take_profit_price = p.take_profit_price := by
  unfold update_trailing_extreme
  (repeat' split) <;> rfl

/-- Updating the trailing extreme never changes the cut-loss threshold. -/
@[simp] lemma ute_cut_loss_price (p : TradePosition) (price : ℚ) :
    (update_trailing_extreme p price).cut_loss_price = p.cut_loss_price := by
  unfold update_trailing_extreme
  (repeat' split) <;> rfl

/-- The trailing ratio is insensitive to the lazy extreme update. -/
lemma ute_ratio (p : TradePosition) (price t : ℚ) :
    trailing_stop_ratio_of (update_trailing_extreme p price) t =
      trailing_stop_ratio_of p t := by
  unfold trailing_stop_ratio_of
  simp

/-- The cut-loss test is insensitive to the lazy extreme update. -/
lemma should_cut_loss_ute (p : TradePosition) (price q : ℚ) :
    should_cut_loss (update_trailing_extreme p price) q = should_cut_loss p q := by
  unfold should_cut_loss
  simp

/-- Netting the amount leaves the average open price alone. -/
@[simp] lemma update_amount_avg (p : TradePosition) (pt : PositionType) (a b : ℚ) :
    (update_amount p pt a b).average_open_price = p.average_open_price := by
  unfold update_amount; split <;> rfl

/-- Netting the amount leaves the take-profit threshold alone. -/
@[simp] lemma update_amount_tp (p : TradePosition) (pt : PositionType) (a b : ℚ) :
    (update_amount p pt a b).take_profit_price = p.take_profit_price := by
  unfold update_amount; split <;> rfl

/-- Netting the amount leaves the cut-loss threshold alone. -/
@[simp] lemma update_amount_cl (p : TradePosition) (pt : PositionType) (a b : ℚ) :
    (update_amount p pt a b).cut_loss_price = p.cut_loss_price := by
  unfold update_amount; split <;> rfl

/-- Netting the amount leaves the lifecycle state alone. -/
@[simp] lemma update_amount_state (p : TradePosition) (pt : PositionType) (a b : ℚ) :
    (update_amount p pt a b).state = p.state := by
  unfold update_amount; split <;> rfl

/-- Netting the amount leaves the unfilled amount alone. -/
@[simp] lemma update_amount_unfilled (p : TradePosition) (pt : PositionType) (a b : ℚ) :
    (update_amount p pt a b).unfilled_amount = p.unfilled_amount := by
  unfold update_amount; split <;> rfl

/-- Netting the amount leaves the side alone. -/
@[simp] lemma update_amount_ptype (p : TradePosition) (pt : PositionType) (a b : ℚ) :
    (update_amount p pt a b).position_type = p.position_type := by
  unfold update_amount; split <;> rfl

/-- Netting the amount leaves the open timestamp alone. -/
@[simp] lemma update_amount_open_timestamp (p : TradePosition) (pt : PositionType) (a b : ℚ) :
    (update_amount p pt a b).open_timestamp = p.open_timestamp := by
  unfold update_amount; split <;> rfl

/-- Netting the amount leaves the open time string alone. -/
@[simp] lemma update_amount_open_time_str (p : TradePosition) (pt : PositionType) (a b : ℚ) :
    (update_amount p pt a b).open_time_str = p.open_time_str := by
  unfold update_amount; split <;> rfl

/-- Netting the amount leaves the cumulative fee alone. -/
@[simp] lemma update_amount_fee (p : TradePosition) (pt : PositionType) (a b : ℚ) :
    (update_amount p pt a b).fee = p.fee := by
  unfold update_amount; split <;> rfl

/-- Netting the amount leaves the realized PnL alone. -/
@[simp] lemma update_amount_pnl (p : TradePosition) (pt : PositionType) (a b : ℚ) :
    (update_amount p pt a b).pnl = p.pnl := by
  unfold update_amount; split <;> rfl

/-- The signed amount after netting a fill. -/
lemma update_amount_amount (p : TradePosition) (pt : PositionType) (a b : ℚ) :
    (update_amount p pt a b).amount =
      if pt = PositionType.Long then p.amount + a else p.amount - a := by
  unfold update_amount; split <;> simp_all

/-- Realizing PnL leaves the lifecycle state alone. -/
@[simp] lemma realize_pnl_state (p : TradePosition) (x : ℚ) :
    (realize_pnl p x).state = p.state := rfl

/-- Realizing PnL leaves the unfilled amount alone. -/
@[simp] lemma realize_pnl_unfilled (p : TradePosition) (x : ℚ) :
    (realize_pnl p x).unfilled_amount = p.unfilled_amount := rfl

/-- Realizing PnL leaves the net amount alone. -/
@[simp] lemma realize_pnl_amount (p : TradePosition) (x : ℚ) :
    (realize_pnl p x).amount = p.amount := rfl

/-- A counter-side fill processed by `decrease` on an `Opening` position
always succeeds, preserves the unfilled amount, and leaves the state either
`Opening` or `Closed "CounterTrade"` — never `Open`. -/
lemma decrease_cases (c : Clock) (p : TradePosition) (pt : PositionType)
    (fp : ℚ) (tp cl : Option ℚ) (amt ast cur : ℚ)
    (hst : p.state = State.Opening) :
    ∃ q, decrease c p pt fp tp cl amt ast cur = some q ∧
      q.unfilled_amount = p.unfilled_amount ∧
      (q.state = State.Opening ∨ q.state = State.Closed "CounterTrade") ∧
      q.state ≠ State.Open := by
  unfold decrease update_amount_and_pnl
  dsimp only
  generalize hP : ({ p with close_asset_in_usd := p.close_asset_in_usd + ast }
    : TradePosition) = P
  have hPst : P.state = State.Opening := by rw [← hP]; exact hst
  have hPun : P.unfilled_amount = p.unfilled_amount := by rw [← hP]
  by_cases hz : (update_amount P pt amt ast).amount = 0
  · simp only [hz, eq_self_iff_true, if_true]
    simp [delete, update_state, set_close_time, hz, hPst, hPun]
  · by_cases hsg : signumD p.amount = signumD (update_amount P pt amt ast).amount
    · simp [hz, hsg, hPst, hPun]
    · simp [hz, hsg, hPst, hPun]

/-! ## Claim C1 -/

/-- Claim C1, counterexample: an `Open` Long position at average price 10 with
`take_profit_price = some 12` and no recorded peak is queried at price 12
(which is at the fixed take-profit line), yet `should_close` returns no close
reason at all — so reaching the fixed take-profit line does not produce a
`TakeProfit` reason. -/
theorem claim1_counterexample :
    mkPos.state = State.Open ∧ mkPos.position_type = PositionType.Long ∧
    mkPos.take_profit_price = some 12 ∧ (12 : ℚ) ≤ 12 ∧
    (should_close mkPos 12).1 = none := by
  refine ⟨rfl, rfl, rfl, le_refl _, ?_⟩
  norm_num [should_close, should_take_profit, update_trailing_extreme,
    is_trailing_stop_triggered, trailing_stop_ratio_of, should_cut_loss, mkPos]

/-- Claim C1, amended: `should_close` returns a `TakeProfit` reason exactly
when the position is `Open` and the trailing-stop trigger fires on the
position after the lazy peak update; crossing the fixed take-profit line by
itself does not yield `TakeProfit` — in particular, for a Long position with
no recorded peak, positive entry price, and take-profit above entry, the
first price at or above the take-profit line never returns `TakeProfit`. -/
theorem claim1_amended (p : TradePosition) (price : ℚ) :
    ((should_close p price).1 = some ReasonForClose.TakeProfit ↔
      p.state = State.Open ∧
        is_trailing_stop_triggered (update_trailing_extreme p price) price = true) ∧
    (∀ t : ℚ, p.state = State.Open → p.position_type = PositionType.Long →
      p.take_profit_price = some t → p.trailing_peak_price = none →
      0 < p.average_open_price → p.average_open_price < t → t ≤ price →
      (should_close p price).1 ≠ some ReasonForClose.TakeProfit) := by
  constructor
  · by_cases hst : p.state = State.Open
    · unfold should_close should_take_profit
      simp only [hst, if_pos rfl, if_true]
      cases htr : is_trailing_stop_triggered (update_trailing_extreme p price) price
      · simp [htr]
        intro h
        split at h <;> simp_all
      · simp [htr, hst]
    · unfold should_close should_take_profit should_cut_loss
      simp [hst]
  · intro t hst hlong htp hpk hpos hlt hge
    have hople : p.average_open_price ≤ price := le_of_lt (lt_of_lt_of_le hlt hge)
    have hmax : max price p.average_open_price = price := max_eq_left hople
    have hpr : 0 < price := lt_of_lt_of_le (lt_trans hpos hlt) hge
    have hr0 : 0 < (t - p.average_open_price) / p.average_open_price * ((5 : ℚ) / 10) :=
      mul_pos (div_pos (sub_pos.mpr hlt) hpos) (by norm_num)
    have hstop : price * (1 - (t - p.average_open_price) / p.average_open_price * ((5 : ℚ) / 10)) < price := by
      nlinarith [mul_pos hpr hr0]
    unfold should_close should_take_profit update_trailing_extreme is_trailing_stop_triggered trailing_stop_ratio_of
    simp [hst, hlong, htp, hpk, hge, hmax, not_le.mpr hstop]
    split <;> simp

/-- Claim C1, witness: at the concrete position of the counterexample the
amended statement instantiates to a proof that the first touch of the fixed
take-profit line yields no `TakeProfit` reason. -/
theorem claim1_witness :
    (should_close mkPos 12).1 ≠ some ReasonForClose.TakeProfit :=
  (claim1_amended mkPos 12).2 12 rfl rfl rfl rfl (by norm_num [mkPos])
    (by norm_num [mkPos]) (by norm_num)

/-! ## Claim C2 -/

/-- Claim C2, counterexample: a same-side fill that supplies `none` for the
take-profit threshold resets an already-set threshold (`some 12`) to `none`,
so an already-set threshold *is* discarded, contrary to the claim. -/
theorem claim2_counterexample :
    mkPosSmall.take_profit_price = some 12 ∧ mkPosSmall.cut_loss_price = some 9 ∧
    mkPosSmall.state = State.Open ∧ mkPosSmall.position_type = PositionType.Long ∧
    ((on_filled clk mkPosSmall PositionType.Long 11 5 55 0 none none 11).getOk.map
      TradePosition.take_profit_price) = some none := by
  refine ⟨rfl, rfl, rfl, rfl, ?_⟩
  norm_num [on_filled, increase, update_amount, CallResult.getOk, mkPosSmall, mkPos]

/-- Claim C2, amended: a same-side fill on an `Open` position recomputes
`average_open_price` as the amount-weighted average of the old value (weight
`|current amount|`) and the fill price (weight fill amount); each threshold is
blended the same way when both an old and a new value are present, adopts the
new value when the old one is `none`, and is *reset to `none`* whenever the
fill supplies `none` — an already-set threshold is discarded in that case. -/
theorem claim2_amended (c : Clock) (p : TradePosition) (pt : PositionType)
    (fp amt ast fe cur : ℚ) (tp cl : Option ℚ)
    (hst : p.state = State.Open) (hpt : p.position_type = pt) :
    ∃ q, on_filled c p pt fp amt ast fe tp cl cur = CallResult.Ok q ∧
      q.average_open_price =
        (p.average_open_price * |p.amount| + fp * amt) / (|p.amount| + amt) ∧
      q.take_profit_price =
        (match tp, p.take_profit_price with
          | some nv, some ov => some ((ov * |p.amount| + nv * amt) / (|p.amount| + amt))
          | some nv, none => some nv
          | none, _ => none) ∧
      q.cut_loss_price =
        (match cl, p.cut_loss_price with
          | some nv, some ov => some ((ov * |p.amount| + nv * amt) / (|p.amount| + amt))
          | some nv, none => some nv
          | none, _ => none) := by
  rcases tp with _ | nv <;> rcases htp : p.take_profit_price with _ | ov <;>
    rcases cl with _ | nc <;> rcases hclp : p.cut_loss_price with _ | oc <;>
    simp [on_filled, increase, hst, hpt, htp, hclp]

/-- Claim C2, witness: the amended statement evaluated on a concrete Long
position holding 10 units, filled with 5 more units at price 11, supplying a
new take-profit of 14 and no cut-loss. -/
theorem claim2_witness :
    ∃ q, on_filled clk mkPosSmall PositionType.Long 11 5 55 2 (some 14) none 11 =
        CallResult.Ok q ∧
      q.average_open_price =
        (mkPosSmall.average_open_price * |mkPosSmall.amount| + 11 * 5) /
          (|mkPosSmall.amount| + 5) ∧
      q.take_profit_price =
        (match (some 14 : Option ℚ), mkPosSmall.take_profit_price with
          | some nv, some ov =>
            some ((ov * |mkPosSmall.amount| + nv * 5) / (|mkPosSmall.amount| + 5))
          | some nv, none => some nv
          | none, _ => none) ∧
      q.cut_loss_price =
        (match (none : Option ℚ), mkPosSmall.cut_loss_price with
          | some nv, some ov =>
            some ((ov * |mkPosSmall.amount| + nv * 5) / (|mkPosSmall.amount| + 5))
          | some nv, none => some nv
          | none, _ => none) :=
  claim2_amended clk mkPosSmall PositionType.Long 11 5 55 2 11 (some 14) none rfl rfl

/-! ## Claim C3 -/

/-- Claim C3: an `Open` Long position with amount 10 receiving a counter-side
(Short) fill of 15 at price `P` ends with amount `-5`, side flipped to Short,
average open price reseeded to `P`, thresholds replaced (not blended) by the
newly supplied ones, and the realized PnL booked by the fill equal to the
unrealized PnL of the full prior 10 units at price `P` computed from the
pre-update amount and notional. -/
theorem claim3_inversion (c : Clock) (p : TradePosition) (P ast fe cur : ℚ)
    (tp cl : Option ℚ)
    (hst : p.state = State.Open) (hpt : p.position_type = PositionType.Long)
    (hamt : p.amount = 10) :
    ∃ q, on_filled c p PositionType.Short P 15 ast fe tp cl cur = CallResult.Ok q ∧
      q.amount = -5 ∧ q.position_type = PositionType.Short ∧
      q.average_open_price = P ∧ q.take_profit_price = tp ∧ q.cut_loss_price = cl ∧
      q.pnl = p.pnl + unrealized_pnl P 10 p.asset_in_usd := by
  norm_num +decide [on_filled, decrease, update_amount_and_pnl, calculate_pnl_for_update,
    update_amount, realize_pnl, signumD, unrealized_pnl, PositionType.opposite,
    hst, hpt, hamt]

/-- Claim C3, witness: the inversion evaluated on a concrete position of 10
units at entry 10, counter-filled with 15 units at price 20. -/
theorem claim3_witness :
    ∃ q, on_filled clk mkPosSmall PositionType.Short 20 15 300 0 (some 18) (some 22) 20 =
        CallResult.Ok q ∧
      q.amount = -5 ∧ q.position_type = PositionType.Short ∧
      q.average_open_price = 20 ∧ q.take_profit_price = some 18 ∧
      q.cut_loss_price = some 22 ∧
      q.pnl = mkPosSmall.pnl + unrealized_pnl 20 10 mkPosSmall.asset_in_usd :=
  claim3_inversion clk mkPosSmall 20 300 0 20 (some 18) (some 22) rfl rfl rfl

/-! ## Claim C4 -/

/-- Claim C4, counterexample: `on_liquidated` with `do_liquidate = false` on
an `Open` (not `Closing`) position returns an error, yet the position record
is *not* unchanged — the cumulative fee has already been incremented from 0
to 1 before the state check. -/
theorem claim4_counterexample :
    mkPos.state = State.Open ∧ mkPos.fee = 0 ∧
    ((on_liquidated clk mkPos 5 1 false none).getErr.map TradePosition.fee) = some 1 := by
  refine ⟨rfl, rfl, ?_⟩
  norm_num [on_liquidated, CallResult.getErr, mkPos]

/-- Claim C4, amended: `on_filled` invoked in a `Closed` state returns an
error with the entire record unchanged; `on_liquidated` with
`do_liquidate = false` in any state other than `Closing` returns an error
with the record unchanged *except* that the cumulative fee has been
incremented by the supplied fee. -/
theorem claim4_amended :
    (∀ (c : Clock) (p : TradePosition) (pt : PositionType)
      (fp amt ast fe cur : ℚ) (tp cl : Option ℚ) (r : String),
      p.state = State.Closed r →
      on_filled c p pt fp amt ast fe tp cl cur = CallResult.Err p) ∧
    (∀ (c : Clock) (p : TradePosition) (cp fe : ℚ) (lr : Option String),
      (∀ s, p.state ≠ State.Closing s) →
      on_liquidated c p cp fe false lr = CallResult.Err { p with fee := p.fee + fe }) := by
  constructor
  · intro c p pt fp amt ast fe cur tp cl r h
    unfold on_filled
    simp [h]
  · intro c p cp fe lr h
    unfold on_liquidated
    cases hst : p.state with
    | Opening => simp [hst]
    | Open => simp [hst]
    | Closing s => exact absurd hst (h s)
    | Closed s => simp [hst]

/-- Claim C4, witness: both amended statements evaluated on concrete
positions — a fill on a `Closed` position, and a non-liquidating
`on_liquidated` call on an `Open` position. -/
theorem claim4_witness :
    on_filled clk mkPosClosed PositionType.Long 1 1 1 1 none none 1 = CallResult.Err mkPosClosed ∧
    on_liquidated clk mkPos 5 1 false none = CallResult.Err { mkPos with fee := mkPos.fee + 1 } :=
  ⟨claim4_amended.1 clk mkPosClosed PositionType.Long 1 1 1 1 1 none none "done" rfl,
   claim4_amended.2 clk mkPos 5 1 none (fun s h => by simp [mkPos] at h)⟩

/-! ## Claim C5 -/

/-- Claim C5: in the concrete scenario (Long, entry 10, take-profit 12,
recorded peak 12.5, so the dynamic stop is 12.5 × 0.9 = 11.25) a
`should_close` query at price 11.2 returns `TakeProfit`; in general the
trailing trigger fires only when the price has retraced past the dynamic
stop derived from the recorded extreme *and* is still strictly above the
entry price (Long) / strictly below the entry price (Short), and once the
price has retraced to or past entry — at or below entry for a Long, at or
above entry for a Short — `should_close` never returns `TakeProfit` and
instead answers exactly the cut-loss test. -/
theorem claim5_trailing :
    (should_close mkPosPeak (56 / 5)).1 = some ReasonForClose.TakeProfit ∧
    (∀ (p : TradePosition) (price : ℚ),
      p.position_type = PositionType.Long →
      (should_close p price).1 = some ReasonForClose.TakeProfit →
      p.state = State.Open ∧
      ∃ t pk, p.take_profit_price = some t ∧
        (update_trailing_extreme p price).trailing_peak_price = some pk ∧
        price ≤ pk * (1 - trailing_stop_ratio_of p t) ∧
        p.average_open_price < price) ∧
    (∀ (p : TradePosition) (price : ℚ),
      p.position_type = PositionType.Short →
      (should_close p price).1 = some ReasonForClose.TakeProfit →
      p.state = State.Open ∧
      ∃ t pk, p.take_profit_price = some t ∧
        (update_trailing_extreme p price).trailing_peak_price = some pk ∧
        pk * (1 + trailing_stop_ratio_of p t) ≤ price ∧
        price < p.average_open_price) ∧
    (∀ (p : TradePosition) (price : ℚ),
      p.state = State.Open → p.position_type = PositionType.Long →
      price ≤ p.average_open_price →
      (should_close p price).1 ≠ some ReasonForClose.TakeProfit ∧
      ((should_close p price).1 = some ReasonForClose.CutLoss ↔
        should_cut_loss p price = true)) ∧
    (∀ (p : TradePosition) (price : ℚ),
      p.state = State.Open → p.position_type = PositionType.Short →
      p.average_open_price ≤ price →
      (should_close p price).1 ≠ some ReasonForClose.TakeProfit ∧
      ((should_close p price).1 = some ReasonForClose.CutLoss ↔
        should_cut_loss p price = true)) := by
  refine ⟨?_, ?_, ?_, ?_, ?_⟩
  · norm_num [should_close, should_take_profit, update_trailing_extreme,
      is_trailing_stop_triggered, trailing_stop_ratio_of, should_cut_loss,
      mkPosPeak, mkPos]
  · intro p price hlong h
    by_cases hst : p.state = State.Open
    · refine ⟨hst, ?_⟩
      unfold should_close should_take_profit at h
      simp only [hst, if_pos rfl, if_true] at h
      cases htr : is_trailing_stop_triggered (update_trailing_extreme p price) price
      · rw [htr] at h
        simp at h
        split at h <;> simp_all
      · unfold is_trailing_stop_triggered at htr
        rw [ute_take_profit_price] at htr
        rcases htp : p.take_profit_price with _ | t
        · rw [htp] at htr; exact absurd htr (by simp)
        · rw [htp] at htr
          rw [ute_position_type, hlong] at htr
          rcases hpk : (update_trailing_extreme p price).trailing_peak_price with _ | pk
          · rw [hpk] at htr; exact absurd htr (by simp)
          · rw [hpk] at htr
            simp only [Bool.and_eq_true, decide_eq_true_eq] at htr
            refine ⟨t, pk, rfl, rfl, ?_, ?_⟩
            · have := htr.1
              rwa [ute_ratio] at this
            · have := htr.2
              rwa [ute_average_open_price] at this
    · unfold should_close should_take_profit at h
      simp [hst] at h
      split at h <;> simp_all
  · intro p price hshort h
    by_cases hst : p.state = State.Open
    · refine ⟨hst, ?_⟩
      unfold should_close should_take_profit at h
      simp only [hst, if_pos rfl, if_true] at h
      cases htr : is_trailing_stop_triggered (update_trailing_extreme p price) price
      · rw [htr] at h
        simp at h
        split at h <;> simp_all
      · unfold is_trailing_stop_triggered at htr
        rw [ute_take_profit_price] at htr
        rcases htp : p.take_profit_price with _ | t
        · rw [htp] at htr; exact absurd htr (by simp)
        · rw [htp] at htr
          rw [ute_position_type, hshort] at htr
          rcases hpk : (update_trailing_extreme p price).trailing_peak_price with _ | pk
          · rw [hpk] at htr; exact absurd htr (by simp)
          · rw [hpk] at htr
            simp only [Bool.and_eq_true, decide_eq_true_eq] at htr
            refine ⟨t, pk, rfl, rfl, ?_, ?_⟩
            · have := htr.1
              rwa [ute_ratio] at this
            · have := htr.2
              rwa [ute_average_open_price] at this
    · unfold should_close should_take_profit at h
      simp [hst] at h
      split at h <;> simp_all
  · intro p price hst hlong hle
    have htr : is_trailing_stop_triggered (update_trailing_extreme p price) price = false := by
      unfold is_trailing_stop_triggered
      rw [ute_take_profit_price, ute_position_type, ute_average_open_price, hlong]
      rcases p.take_profit_price with _ | t
      · rfl
      · rcases (update_trailing_extreme p price).trailing_peak_price with _ | pk
        · rfl
        · simp [not_lt.mpr hle]
    unfold should_close should_take_profit
    simp only [hst, if_pos rfl, if_true, htr, Bool.false_eq_true, if_false]
    rw [should_cut_loss_ute]
    cases hcl : should_cut_loss p price <;> simp [hcl]
  · intro p price hst hshort hle
    have htr : is_trailing_stop_triggered (update_trailing_extreme p price) price = false := by
      unfold is_trailing_stop_triggered
      rw [ute_take_profit_price, ute_position_type, ute_average_open_price, hshort]
      rcases p.take_profit_price with _ | t
      · rfl
      · rcases (update_trailing_extreme p price).trailing_peak_price with _ | pk
        · rfl
        · simp [not_lt.mpr hle]
    unfold should_close should_take_profit
    simp only [hst, if_pos rfl, if_true, htr, Bool.false_eq_true, if_false]
    rw [should_cut_loss_ute]
    cases hcl : should_cut_loss p price <;> simp [hcl]

/-- Claim C5, witness: the retracement-past-entry clauses evaluated at a
concrete `Open` Long position queried at price 9, below its entry of 10, and
at a concrete `Open` Short position queried at price 11, above its entry of
10. -/
theorem claim5_witness :
    ((should_close mkPos 9).1 ≠ some ReasonForClose.TakeProfit ∧
      ((should_close mkPos 9).1 = some ReasonForClose.CutLoss ↔
        should_cut_loss mkPos 9 = true)) ∧
    ((should_close mkPosShort 11).1 ≠ some ReasonForClose.TakeProfit ∧
      ((should_close mkPosShort 11).1 = some ReasonForClose.CutLoss ↔
        should_cut_loss mkPosShort 11 = true)) :=
  ⟨claim5_trailing.2.2.2.1 mkPos 9 rfl rfl (by norm_num [mkPos]),
   claim5_trailing.2.2.2.2 mkPosShort 11 rfl rfl (by norm_num [mkPosShort, mkPos])⟩

/-! ## Claim C6 -/

/-- Claim C6: the trailing extreme threaded out of `should_close` is exactly
the one produced by `should_take_profit`; for a Long position with a recorded
peak, each call leaves the peak equal to `max old price` when the position is
`Open` and the price is at or above the fixed take-profit line, and exactly
the old peak otherwise — so the peak never decreases; symmetrically a Short
position's trough becomes `min old price` under the same gate and never
increases. -/
theorem claim6_peak_monotone (p : TradePosition) (price pk : ℚ) :
    ((should_close p price).2 = (should_take_profit p price).2) ∧
    (p.position_type = PositionType.Long → p.trailing_peak_price = some pk →
      (should_take_profit p price).2.trailing_peak_price =
        some (if p.state = State.Open ∧ fixed_tp_crossed p price = true
          then max pk price else pk) ∧
      pk ≤ (if p.state = State.Open ∧ fixed_tp_crossed p price = true
          then max pk price else pk)) ∧
    (p.position_type = PositionType.Short → p.trailing_peak_price = some pk →
      (should_take_profit p price).2.trailing_peak_price =
        some (if p.state = State.Open ∧ fixed_tp_crossed p price = true
          then min pk price else pk) ∧
      (if p.state = State.Open ∧ fixed_tp_crossed p price = true
          then min pk price else pk) ≤ pk) := by
  refine ⟨?_, ?_, ?_⟩
  · simp only [should_close]
    (repeat' split) <;> rfl
  · intro hlong hpk
    by_cases hst : p.state = State.Open
    · unfold should_take_profit update_trailing_extreme
      rcases htp : p.take_profit_price with _ | t
      · simp [hst, htp, hpk, fixed_tp_crossed, hlong]
      · by_cases hge : t ≤ price
        · by_cases hgt : pk < price
          · simp [hst, htp, hpk, hlong, hge, hgt, fixed_tp_crossed,
              max_eq_right (le_of_lt hgt), le_of_lt hgt]
          · simp [hst, htp, hpk, hlong, hge, hgt, fixed_tp_crossed,
              max_eq_left (not_lt.mp hgt)]
        · simp [hst, htp, hpk, hlong, hge, fixed_tp_crossed]
    · unfold should_take_profit
      simp [hst, hpk]
  · intro hshort hpk
    by_cases hst : p.state = State.Open
    · unfold should_take_profit update_trailing_extreme
      rcases htp : p.take_profit_price with _ | t
      · simp [hst, htp, hpk, fixed_tp_crossed, hshort]
      · by_cases hge : price ≤ t
        · by_cases hgt : price < pk
          · simp [hst, htp, hpk, hshort, hge, hgt, fixed_tp_crossed,
              min_eq_right (le_of_lt hgt), le_of_lt hgt]
          · simp [hst, htp, hpk, hshort, hge, hgt, fixed_tp_crossed,
              min_eq_left (not_lt.mp hgt)]
        · simp [hst, htp, hpk, hshort, hge, fixed_tp_crossed]
    · unfold should_take_profit
      simp [hst, hpk]

/-- Claim C6, witness: the Long clause evaluated at the concrete position
with peak 12.5 queried at price 13 (at or above its take-profit of 12). -/
theorem claim6_witness :
    (should_take_profit mkPosPeak 13).2.trailing_peak_price =
      some (if mkPosPeak.state = State.Open ∧ fixed_tp_crossed mkPosPeak 13 = true
        then max (25 / 2) 13 else (25 / 2)) ∧
    (25 / 2 : ℚ) ≤ (if mkPosPeak.state = State.Open ∧ fixed_tp_crossed mkPosPeak 13 = true
        then max (25 / 2) 13 else (25 / 2)) :=
  (claim6_peak_monotone mkPosPeak 13 (25 / 2)).2.1 rfl rfl

/-! ## Claim C7 -/

/-- Claim C7: `cancel` on a position in `Closing` succeeds with
`ClosingCanceled`, moves the state back to `Open`, and sets the tick counter
to the configured max-holding threshold rather than zero. -/
theorem claim7_cancel_closing (c : Clock) (p : TradePosition) (r : String)
    (h : p.state = State.Closing r) :
    ∃ q, cancel c p = CallResult.Ok (CancelResult.ClosingCanceled, q) ∧
      q.state = State.Open ∧ q.tick_count = p.max_holding_tick_count := by
  simp [cancel, h, update_state]

/-- Claim C7, witness: the cancel-close transition evaluated on a concrete
position in `Closing`. -/
theorem claim7_witness :
    ∃ q, cancel clk mkPosClosing = CallResult.Ok (CancelResult.ClosingCanceled, q) ∧
      q.state = State.Open ∧ q.tick_count = mkPosClosing.max_holding_tick_count :=
  claim7_cancel_closing clk mkPosClosing "Expired" rfl

/-! ## Claim C8 -/

/-- Claim C8: `should_open_expired` holds exactly when the position is
`Open`, its tick counter strictly exceeds the configured max-holding
threshold, and take-profit has not been reached at the given price — neither
the fixed take-profit line crossed nor the trailing-stop trigger fired. -/
theorem claim8_expiry (p : TradePosition) (price : ℚ) :
    should_open_expired p price = true ↔
      p.state = State.Open ∧ p.max_holding_tick_count < p.tick_count ∧
        ¬(fixed_tp_crossed p price = true ∨ is_trailing_stop_triggered p price = true) := by
  unfold should_open_expired has_reached_take_profit
  split
  · rename_i hst
    simp [hst]
  · rename_i hst
    simp [hst]

/-! ## Claim C9 -/

/-- Claim C9: an `Opening` position with `unfilled_amount = 50` receiving two
same-side fills of 20 and then 30 stays `Opening` with `unfilled_amount = 30`
and an untouched open time after the first fill, and after the second fill
has `unfilled_amount = 0`, state `Open`, and the open time stamped from the
clock of that second call — the `Opening → Open` transition fires exactly
once, on the fill that lands the unfilled amount exactly on zero. -/
theorem claim9_two_fills (c1 c2 : Clock) (p : TradePosition) (pt : PositionType)
    (fp1 ast1 fe1 cur1 fp2 ast2 fe2 cur2 : ℚ) (tp1 cl1 tp2 cl2 : Option ℚ)
    (hst : p.state = State.Opening) (hun : p.unfilled_amount = 50)
    (hpt : p.position_type = pt) :
    ∃ q1 q2,
      on_filled c1 p pt fp1 20 ast1 fe1 tp1 cl1 cur1 = CallResult.Ok q1 ∧
      q1.state = State.Opening ∧ q1.unfilled_amount = 30 ∧
      q1.open_timestamp = p.open_timestamp ∧ q1.open_time_str = p.open_time_str ∧
      on_filled c2 q1 pt fp2 30 ast2 fe2 tp2 cl2 cur2 = CallResult.Ok q2 ∧
      q2.unfilled_amount = 0 ∧ q2.state = State.Open ∧
      q2.open_timestamp = c2.timestamp ∧ q2.open_time_str = c2.time_str := by
  have h1 : ∃ q1, on_filled c1 p pt fp1 20 ast1 fe1 tp1 cl1 cur1 = CallResult.Ok q1 ∧
      q1.state = State.Opening ∧ q1.unfilled_amount = 30 ∧ q1.position_type = pt ∧
      q1.open_timestamp = p.open_timestamp ∧ q1.open_time_str = p.open_time_str := by
    norm_num [on_filled, increase, hst, hun, hpt]
  obtain ⟨q1, e1, hq1st, hq1un, hq1pt, hq1ts, hq1str⟩ := h1
  have h2 : ∃ q2, on_filled c2 q1 pt fp2 30 ast2 fe2 tp2 cl2 cur2 = CallResult.Ok q2 ∧
      q2.unfilled_amount = 0 ∧ q2.state = State.Open ∧
      q2.open_timestamp = c2.timestamp ∧ q2.open_time_str = c2.time_str := by
    norm_num +decide [on_filled, increase, update_state, set_open_time, hq1st, hq1un, hq1pt]
  obtain ⟨q2, e2, hq2un, hq2st, hq2ts, hq2str⟩ := h2
  exact ⟨q1, q2, e1, hq1st, hq1un, hq1ts, hq1str, e2, hq2un, hq2st, hq2ts, hq2str⟩

/-- Claim C9, witness: the two-fill scenario evaluated on a freshly created
`Opening` position with 50 units on order, with two distinguishable clocks. -/
theorem claim9_witness :
    ∃ q1 q2,
      on_filled clk mkPosFresh PositionType.Long 10 20 200 1 (some 12) (some 9) 10 =
        CallResult.Ok q1 ∧
      q1.state = State.Opening ∧ q1.unfilled_amount = 30 ∧
      q1.open_timestamp = mkPosFresh.open_timestamp ∧
      q1.open_time_str = mkPosFresh.open_time_str ∧
      on_filled clk2 q1 PositionType.Long 11 30 330 1 (some 12) (some 9) 11 =
        CallResult.Ok q2 ∧
      q2.unfilled_amount = 0 ∧ q2.state = State.Open ∧
      q2.open_timestamp = clk2.timestamp ∧ q2.open_time_str = clk2.time_str :=
  claim9_two_fills clk clk2 mkPosFresh PositionType.Long 10 200 1 10 11 330 1 11
    (some 12) (some 9) (some 12) (some 9) rfl rfl rfl

/-! ## Claim C10 -/

/-- Claim C10, counterexample: an `Opening` Long position already holding 5
units with 3 units outstanding receives a counter-side (Short) fill of 5 — an
overfill, since 5 > 3.  The call returns `Ok` and leaves
`unfilled_amount = -2`, but the state does *not* remain `Opening`: the
counter fill nets the amount to zero, so the position ends
`Closed "CounterTrade"`. -/
theorem claim10_counterexample :
    mkPosOpening.state = State.Opening ∧ mkPosOpening.unfilled_amount = 3 ∧
    ((on_filled clk mkPosOpening PositionType.Short 10 5 50 0 none none 10).getOk.map
      TradePosition.state) = some (State.Closed "CounterTrade") := by
  refine ⟨rfl, rfl, ?_⟩
  norm_num +decide [on_filled, increase, decrease, update_amount_and_pnl, update_amount,
    calculate_pnl_for_update, unrealized_pnl, realize_pnl, signumD, delete,
    update_state, set_close_time, set_open_time, CallResult.getOk,
    mkPosOpening, mkPos, clk]

/-- Claim C10, amended: an `Opening` position filled with strictly more than
its remaining unfilled amount returns `Ok`, leaves `unfilled_amount` strictly
negative (never clamped to zero), and never transitions to `Open`; the state
remains `Opening` whenever the fill is same-side, and in general is either
`Opening` or — when a counter-side fill nets the amount exactly to zero —
`Closed "CounterTrade"`. -/
theorem claim10_amended (c : Clock) (p : TradePosition) (pt : PositionType)
    (fp amt ast fe cur : ℚ) (tp cl : Option ℚ)
    (hst : p.state = State.Opening) (hgt : p.unfilled_amount < amt) :
    ∃ q, on_filled c p pt fp amt ast fe tp cl cur = CallResult.Ok q ∧
      q.unfilled_amount = p.unfilled_amount - amt ∧ q.unfilled_amount < 0 ∧
      q.state ≠ State.Open ∧
      (p.position_type = pt → q.state = State.Opening) ∧
      (q.state = State.Opening ∨ q.state = State.Closed "CounterTrade") := by
  have hneg : p.unfilled_amount - amt < 0 := sub_neg.mpr hgt
  have hne : ¬ p.unfilled_amount - amt = 0 := ne_of_lt hneg
  by_cases hpt : p.position_type = pt
  · norm_num +decide [on_filled, increase, hst, hne, hpt, hneg]
  · obtain ⟨q, hdq, hdun, hds, hdno⟩ :=
      decrease_cases c
        { p with
          unfilled_amount := p.unfilled_amount - amt
          state := State.Opening
          fee := p.fee + fe }
        pt fp tp cl amt ast cur rfl
    refine ⟨{ q with ordered_price := q.average_open_price }, ?_, ?_, ?_, ?_, ?_, ?_⟩
    · unfold on_filled
      simp only [hst]
      simp [hne, hpt, hdq]
    · simpa using hdun
    · show q.unfilled_amount < 0
      rw [hdun]
      simpa using hneg
    · simpa using hdno
    · intro h; exact absurd h hpt
    · simpa using hds

/-- Claim C10, witness: the overfill behaviour evaluated on a fresh `Opening`
position with 50 units on order receiving a same-side fill of 60. -/
theorem claim10_witness :
    ∃ q, on_filled clk mkPosFresh PositionType.Long 10 60 600 0 (some 12) (some 9) 10 =
        CallResult.Ok q ∧
      q.unfilled_amount = mkPosFresh.unfilled_amount - 60 ∧ q.unfilled_amount < 0 ∧
      q.state ≠ State.Open ∧
      (mkPosFresh.position_type = PositionType.Long → q.state = State.Opening) ∧
      (q.state = State.Opening ∨ q.state = State.Closed "CounterTrade") :=
  claim10_amended clk mkPosFresh PositionType.Long 10 60 600 0 10 (some 12) (some 9)
    rfl (by norm_num [mkPosFresh, mkPos])

end DebotPM
